import Mathlib

/-!
Verification of the download lifecycle and queue subsystem of the
Calibre-Web-Automated-Downloader repository.

The durable store (src/src/infrastructure/downloads_db.py) is a SQLite table
`download_history`; we embed it as a list of `DRecord` rows and each store
method as a pure function on that list.  Wall-clock timestamps
(`datetime.now(timezone.utc)` / SQL `CURRENT_TIMESTAMP`) are passed in as an
explicit `now : Nat` parameter.  The reconciled status view
(src/src/api/routes/downloads.py, `api_user_download_status`) is embedded as a
pure function of the durable rows and a snapshot of the in-memory live queue.
-/

/-- The `status` column enum of `download_history`
(CHECK constraint in downloads_db.py, schema lines 34-86). -/
inductive Status where
  | queued
  | processing
  | downloading
  | waiting
  | completed
  | error
  | cancelled
deriving DecidableEq, Repr

/-- Terminal statuses, the set `['completed', 'error', 'cancelled']` used by
`update_download_status` and the stats refresh. -/
def Status.isTerminal : Status → Bool
  | .completed => true
  | .error => true
  | .cancelled => true
  | _ => false

/-- The set `('queued', 'processing', 'downloading', 'waiting')` used by
`cancel_phantom_downloads`. -/
def Status.isActive : Status → Bool
  | .queued => true
  | .processing => true
  | .downloading => true
  | .waiting => true
  | _ => false

/-- The set `('downloading', 'processing', 'waiting')` used by
`cleanup_phantom_downloads_on_startup`.  Note that `queued` is NOT in it. -/
def Status.isStartupPhantom : Status → Bool
  | .downloading => true
  | .processing => true
  | .waiting => true
  | _ => false

/-- One row of the `download_history` table (schema in `_init_db`,
downloads_db.py lines 34-86).  Timestamps are `Nat` instants; nullable
columns are `Option`.  The write-only forensic columns `anna_archive_id`,
`content_hash` and `book_info_json`, which no claim or query reads, are not
carried. -/
structure DRecord where
  id : Nat
  username : String
  book_id : String
  book_title : Option String := none
  book_author : Option String := none
  book_publisher : Option String := none
  book_year : Option String := none
  book_language : Option String := none
  book_format : Option String := none
  status : Status := .queued
  queued_at : Option Nat := none
  started_at : Option Nat := none
  completed_at : Option Nat := none
  download_duration : Option Nat := none
  file_size : Option Nat := none
  file_path : Option String := none
  expected_size : Option Nat := none
  cover_url : Option String := none
  anna_search_url : Option String := none
  final_download_url : Option String := none
  url_discovered_at : Option Nat := none
  url_expires_at : Option Nat := none
  progress_percent : Nat := 0
  download_speed : Option String := none
  eta_seconds : Option Nat := none
  wait_time : Option Nat := none
  wait_start : Option Nat := none
  error_message : Option String := none
  retry_count : Nat := 0
  can_retry_direct : Bool := false
  created_at : Nat := 0
  updated_at : Nat := 0
deriving DecidableEq, Repr

/-- The durable store: the `download_history` table as a list of rows,
in insertion (rowid) order. -/
abbrev DownloadsDB := List DRecord

/-- Python truthiness of an optional string (`if s:`): present and
non-empty. -/
def truthyStr : Option String → Bool
  | some s => !(s == "")
  | none => false

/-- Modelled from the spec: `BookInfo` (src/src/core/models.py is absent from
the sources).  Spec section 3: identifies a book by an opaque `id`, plus
`title`, `author`, `format`, `preview` (cover URL) and descriptive fields; the
insert in `record_download_queued` reads `id`, `title`, `author`, `publisher`,
`year`, `language`, `format` and `preview`. -/
structure BookInfo where
  id : String
  title : Option String := none
  author : Option String := none
  publisher : Option String := none
  year : Option String := none
  language : Option String := none
  format : Option String := none
  preview : Option String := none
deriving DecidableEq, Repr

/-- `record_download_queued` (downloads_db.py lines 172-199): INSERT of a new
`queued` row; `lastrowid` is modelled as one more than the largest existing
id (SQLite AUTOINCREMENT).  Returns the new table and the new row id. -/
def record_download_queued (db : DownloadsDB) (now : Nat) (username : String)
    (book_info : BookInfo) (search_url : Option String) : DownloadsDB × Nat :=
  let newId := (db.map (·.id)).foldr max 0 + 1
  let row : DRecord :=
    { id := newId
      username := username
      book_id := book_info.id
      book_title := book_info.title
      book_author := book_info.author
      book_publisher := book_info.publisher
      book_year := book_info.year
      book_language := book_info.language
      book_format := book_info.format
      status := .queued
      anna_search_url := search_url
      cover_url := book_info.preview
      queued_at := some now
      created_at := now
      updated_at := now }
  (db ++ [row], newId)

/-- The `**kwargs` of `update_download_status` (downloads_db.py lines
218-223).  Only the nine whitelisted column names are ever written; an outer
`Option` records whether the key was passed at all, the inner type is the
column's (nullable) value.  The keys `started_at` / `completed_at` are not in
the whitelist — passing them only suppresses the automatic stamping (lines
211-216) — so just their presence is recorded.  Any other key is ignored by
the loop and is not modelled. -/
structure UpdateKwargs where
  progress_percent : Option Nat := none
  download_speed : Option (Option String) := none
  eta_seconds : Option (Option Nat) := none
  error_message : Option (Option String) := none
  file_size : Option (Option Nat) := none
  file_path : Option (Option String) := none
  download_duration : Option (Option Nat) := none
  wait_time : Option (Option Nat) := none
  wait_start : Option (Option Nat) := none
  has_started_at : Bool := false
  has_completed_at : Bool := false
deriving DecidableEq, Repr

/-- Apply the whitelisted kwargs fields of `update_download_status`
(downloads_db.py lines 218-223) to one row. -/
def applyKwargs (kw : UpdateKwargs) (r : DRecord) : DRecord :=
  let r := match kw.progress_percent with
    | some v => { r with progress_percent := v } | none => r
  let r := match kw.download_speed with
    | some v => { r with download_speed := v } | none => r
  let r := match kw.eta_seconds with
    | some v => { r with eta_seconds := v } | none => r
  let r := match kw.error_message with
    | some v => { r with error_message := v } | none => r
  let r := match kw.file_size with
    | some v => { r with file_size := v } | none => r
  let r := match kw.file_path with
    | some v => { r with file_path := v } | none => r
  let r := match kw.download_duration with
    | some v => { r with download_duration := v } | none => r
  let r := match kw.wait_time with
    | some v => { r with wait_time := v } | none => r
  match kw.wait_start with
    | some v => { r with wait_start := v } | none => r

/-- The per-row effect of `update_download_status` (downloads_db.py lines
206-223): set `status` and `updated_at`; if the new status is `downloading`
and `started_at` was not passed, stamp `started_at := now`; else if the new
status is terminal and `completed_at` was not passed, stamp
`completed_at := now`; then apply the whitelisted kwargs. -/
def updateRow (now : Nat) (status : Status) (kw : UpdateKwargs) (r : DRecord) : DRecord :=
  let r := { r with status := status, updated_at := now }
  let r :=
    if status == .downloading && !kw.has_started_at then
      { r with started_at := some now }
    else if status.isTerminal && !kw.has_completed_at then
      { r with completed_at := some now }
    else r
  applyKwargs kw r

/-- `update_download_status` (downloads_db.py lines 201-235):
`UPDATE download_history SET ... WHERE id = ?`.  There is no guard on the
current status; every row matching the id is overwritten.  The trailing
user-stats cache refresh (lines 231-235) touches only the `user_stats` table
and is not modelled. -/
def update_download_status (db : DownloadsDB) (now : Nat) (download_id : Nat)
    (status : Status) (kw : UpdateKwargs) : DownloadsDB :=
  db.map fun r => if r.id == download_id then updateRow now status kw r else r

/-- `update_download_urls` (downloads_db.py lines 237-260).  Python
truthiness: an absent or empty `search_url` / `final_url` leaves the
corresponding columns alone; a truthy `final_url` also sets
`url_discovered_at` (to `discovered_at` or now) and `can_retry_direct = 1`. -/
def update_download_urls (db : DownloadsDB) (now : Nat) (download_id : Nat)
    (search_url : Option String) (final_url : Option String)
    (discovered_at : Option Nat) : DownloadsDB :=
  db.map fun r =>
    if r.id == download_id then
      let r := { r with updated_at := now }
      let r := if truthyStr search_url then { r with anna_search_url := search_url } else r
      if truthyStr final_url then
        { r with final_download_url := final_url
                 url_discovered_at := some (discovered_at.getD now)
                 can_retry_direct := true }
      else r
    else r

/-- `mark_url_verified` (downloads_db.py lines 262-264). -/
def mark_url_verified (db : DownloadsDB) (now : Nat) (download_id : Nat)
    (final_url : String) : DownloadsDB :=
  update_download_urls db now download_id none (some final_url) none

/-- `mark_url_failed` (downloads_db.py lines 266-275):
`SET can_retry_direct = 0, error_message = ?, updated_at = ? WHERE id = ?`. -/
def mark_url_failed (db : DownloadsDB) (now : Nat) (download_id : Nat)
    (error_msg : String) : DownloadsDB :=
  db.map fun r =>
    if r.id == download_id then
      { r with can_retry_direct := false
               error_message := some error_msg
               updated_at := now }
    else r

/-- `get_download_record` (downloads_db.py lines 277-288): with a username,
`SELECT * WHERE id = ? AND username = ?`; without, `SELECT * WHERE id = ?`.
`fetchone` is the first matching row in table order. -/
def get_download_record (db : DownloadsDB) (download_id : Nat)
    (username : Option String) : Option DRecord :=
  match username with
  | some u => db.find? fun r => r.id == download_id && r.username == u
  | none => db.find? fun r => r.id == download_id

/-- `ORDER BY created_at DESC`: row `a` may precede row `b` when
`b.created_at ≤ a.created_at`. -/
def createdDesc (a b : DRecord) : Prop := b.created_at ≤ a.created_at

instance : DecidableRel createdDesc := fun a b => Nat.decLe b.created_at a.created_at

instance : IsTotal DRecord createdDesc :=
  ⟨fun a b => (Nat.le_total b.created_at a.created_at).imp id id⟩

instance : IsTrans DRecord createdDesc :=
  ⟨fun _ _ _ h1 h2 => Nat.le_trans h2 h1⟩

/-- The optional `AND status = ?` clause of `get_user_downloads`
(downloads_db.py lines 299-301). -/
def matchesStatus (status : Option Status) (r : DRecord) : Bool :=
  match status with
  | some s => r.status == s
  | none => true

/-- `get_user_downloads` (downloads_db.py lines 290-307):
`SELECT * WHERE username = ? [AND status = ?] ORDER BY created_at DESC
LIMIT ? OFFSET ?`. -/
def get_user_downloads (db : DownloadsDB) (username : String)
    (status : Option Status) (limit : Nat) (offset : Nat) : List DRecord :=
  ((((db.filter fun r => r.username == username && matchesStatus status r).insertionSort
      createdDesc).drop offset).take limit)

/-- `get_user_downloads_by_status` (downloads_db.py lines 309-328): fetch the
user's downloads with `limit=1000`, then group by the seven status values;
iteration order within a bucket is the fetched (created_at-descending)
order. -/
def get_user_downloads_by_status (db : DownloadsDB) (username : String) :
    Status → List DRecord :=
  let downloads := get_user_downloads db username none 1000 0
  fun s => downloads.filter fun r => r.status == s

/-- The WHERE clause of `get_redownloadable_books` (downloads_db.py lines
335-348): owned by the user, `final_download_url IS NOT NULL`,
`can_retry_direct = 1`, terminal outcome `completed`/`error`, and the
optional (truthy) `book_id` filter. -/
def redownloadablePred (username : String) (book_id : Option String)
    (r : DRecord) : Bool :=
  r.username == username && r.final_download_url.isSome && r.can_retry_direct &&
    (r.status == .completed || r.status == .error) &&
    (!truthyStr book_id || r.book_id == book_id.getD "")

/-- `get_redownloadable_books` (downloads_db.py lines 330-353), ordered by
`created_at DESC`.  The SQL projects a subset of columns; we return whole
rows, which is immaterial for inclusion/exclusion properties. -/
def get_redownloadable_books (db : DownloadsDB) (username : String)
    (book_id : Option String) : List DRecord :=
  (db.filter (redownloadablePred username book_id)).insertionSort createdDesc

/-- `cancel_phantom_downloads` (downloads_db.py lines 466-503): select the
book's rows in an active status; if none, return 0; otherwise set them all to
`cancelled` with `completed_at`/`updated_at` = CURRENT_TIMESTAMP and the
diagnostic message, returning the UPDATE rowcount. -/
def cancel_phantom_downloads (db : DownloadsDB) (now : Nat) (book_id : String) :
    DownloadsDB × Nat :=
  let active := db.filter fun r => r.book_id == book_id && r.status.isActive
  if active.isEmpty then (db, 0)
  else
    (db.map fun r =>
      if r.book_id == book_id && r.status.isActive then
        { r with status := .cancelled
                 completed_at := some now
                 updated_at := now
                 error_message := some "Cancelled via phantom removal - queue desync detected" }
      else r,
     db.countP fun r => r.book_id == book_id && r.status.isActive)

/-- `cleanup_phantom_downloads_on_startup` (downloads_db.py lines 505-551):
select rows with status in `('downloading', 'processing', 'waiting')`
(note: `queued` is not included); if none, return 0; otherwise cancel them
all with the startup diagnostic message, returning the UPDATE rowcount. -/
def cleanup_phantom_downloads_on_startup (db : DownloadsDB) (now : Nat) :
    DownloadsDB × Nat :=
  let phantoms := db.filter fun r => r.status.isStartupPhantom
  if phantoms.isEmpty then (db, 0)
  else
    (db.map fun r =>
      if r.status.isStartupPhantom then
        { r with status := .cancelled
                 completed_at := some now
                 updated_at := now
                 error_message := some "Auto-cancelled on server startup - downloads cannot persist across restarts" }
      else r,
     db.countP fun r => r.status.isStartupPhantom)

/-- Modelled from the spec: the outcome of `_download_from_direct_url`
(src/src/core/book_manager.py is absent from the sources).  Spec section 4.4:
the RetryEngine performs a streamed fetch that either reports success or
failure as a boolean, or raises; a raise is modelled as `exn`. -/
inductive FetchOutcome where
  | ok
  | failed
  | exn : String → FetchOutcome
deriving DecidableEq, Repr

/-- `direct_redownload` (downloads_db.py lines 413-445).  The external fetch
`_download_from_direct_url(url, target_path, expected_size)` is passed in as
`fetch`; `stat_size` stands for
`target_path.stat().st_size if target_path.exists() else None` on the success
path.  Absent record or non-truthy URL returns false without touching the
store; a failed fetch calls `mark_url_failed` with
"Direct re-download failed"; a raising fetch is caught and calls
`mark_url_failed` with the formatted message.  Note there is no
`can_retry_direct` check anywhere on this path. -/
def direct_redownload (fetch : String → Option Nat → FetchOutcome)
    (stat_size : Option Nat) (db : DownloadsDB) (now : Nat)
    (download_record_id : Nat) (target_path : String) : DownloadsDB × Bool :=
  match get_download_record db download_record_id none with
  | none => (db, false)
  | some record =>
    if !truthyStr record.final_download_url then (db, false)
    else
      match fetch (record.final_download_url.getD "") record.expected_size with
      | .ok =>
        (update_download_status db now download_record_id .completed
          { file_path := some (some target_path), file_size := some stat_size },
         true)
      | .failed =>
        (mark_url_failed db now download_record_id "Direct re-download failed", false)
      | .exn e =>
        (mark_url_failed db now download_record_id ("Direct re-download error: " ++ e), false)

/-- One live-queue `BookInfo` as read by the status route
(downloads.py lines 234-251): only the attributes the route reads. -/
structure LiveBook where
  title : Option String := none
  author : Option String := none
  progress : Nat := 0
  download_speed : Option String := none
  eta_seconds : Option Nat := none
  wait_time : Option Nat := none
  wait_start : Option Nat := none
  error : Option String := none
deriving DecidableEq, Repr

/-- A snapshot of `backend.queue_status()`: each lifecycle bucket maps
book ids to live entries (modelled as association lists). -/
structure LiveSnapshot where
  queued : List (String × LiveBook) := []
  processing : List (String × LiveBook) := []
  downloading : List (String × LiveBook) := []
  waiting : List (String × LiveBook) := []
  available : List (String × LiveBook) := []
  errored : List (String × LiveBook) := []
deriving DecidableEq, Repr

/-- The book ids active in the live queue (downloads.py lines 201-206): the
keys of the `queued`, `downloading`, `processing`, `waiting` and `available`
buckets.  The `error` bucket is deliberately not included. -/
def active_queue_book_ids (live : LiveSnapshot) : List String :=
  (live.queued ++ live.downloading ++ live.processing ++ live.waiting ++
    live.available).map (·.1)

/-- Dictionary lookup `global_status[bucket][book_id]`. -/
def lookupLive (bucket : List (String × LiveBook)) (book_id : String) :
    Option LiveBook :=
  (bucket.find? fun p => p.1 == book_id).map (·.2)

/-- The live bucket consulted when enriching a database record of the given
non-terminal status (downloads.py lines 228-229; the `status != 'error'`
conditional there is the identity). -/
def liveBucketOf (live : LiveSnapshot) : Status → List (String × LiveBook)
  | .queued => live.queued
  | .processing => live.processing
  | .downloading => live.downloading
  | .waiting => live.waiting
  | _ => []

/-- One entry of the JSON response of `api_user_download_status`
(downloads.py lines 216-225, 238-245, 267-276).  The real-time keys are only
present on enriched entries; absence is modelled as `none`. -/
structure ViewEntry where
  id : String
  title : Option String := none
  author : Option String := none
  format : Option String := none
  cover_url : Option String := none
  preview : Option String := none
  progress : Nat := 0
  status : Status := .queued
  download_speed : Option String := none
  eta_seconds : Option Nat := none
  wait_time : Option Nat := none
  wait_start : Option Nat := none
  error : Option String := none
deriving DecidableEq, Repr

/-- `queue_title and queue_title.strip() and queue_title != 'Unknown'`
(downloads.py line 248): a present, non-blank title other than the
placeholder. -/
def goodLiveTitle : Option String → Bool
  | some t => !(t.trim == "") && !(t == "Unknown")
  | none => false

/-- `queue_author and queue_author.strip() and queue_author != 'Unknown Author'`
(downloads.py line 250). -/
def goodLiveAuthor : Option String → Bool
  | some a => !(a.trim == "") && !(a == "Unknown Author")
  | none => false

/-- Enrichment of one non-terminal database record with real-time queue data
(downloads.py lines 212-253). -/
def enrichRecord (live : LiveSnapshot) (s : Status) (r : DRecord) : ViewEntry :=
  let base : ViewEntry :=
    { id := r.book_id
      title := r.book_title
      author := r.book_author
      format := r.book_format
      cover_url := r.cover_url
      preview := r.cover_url
      progress := 0
      status := s }
  match lookupLive (liveBucketOf live s) r.book_id with
  | none => base
  | some q =>
    let base :=
      { base with progress := q.progress
                  download_speed := q.download_speed
                  eta_seconds := q.eta_seconds
                  wait_time := q.wait_time
                  wait_start := q.wait_start
                  error := q.error }
    let base := if goodLiveTitle q.title then { base with title := q.title } else base
    if goodLiveAuthor q.author then { base with author := q.author } else base

/-- Reshaping of one terminal database record that survives the suppression
filter (downloads.py lines 267-276). -/
def terminalEntry (s : Status) (r : DRecord) : ViewEntry :=
  { id := r.book_id
    title := r.book_title
    author := r.book_author
    format := r.book_format
    cover_url := r.cover_url
    preview := r.cover_url
    progress := if s == .completed then 100 else 0
    status := s }

/-- The reconciled per-user status view, `api_user_download_status`
(downloads.py lines 182-281), as a pure function of the durable rows and a
live-queue snapshot: group the user's records by status; enrich the
non-terminal buckets (`queued`, `downloading`, `processing`, `waiting`) with
live data; filter the terminal buckets (`completed`, `error`, `cancelled`),
dropping every record whose `book_id` is still active in the queue.  The
HTTP/session/error wrapper is outside the model. -/
def api_user_download_status (db : DownloadsDB) (live : LiveSnapshot)
    (username : String) : Status → List ViewEntry :=
  let grouped := get_user_downloads_by_status db username
  let active := active_queue_book_ids live
  fun s =>
    if s.isTerminal then
      ((grouped s).filter fun r => !active.contains r.book_id).map (terminalEntry s)
    else
      (grouped s).map (enrichRecord live s)

/-! ## Helper lemmas -/

/-- Closed form of `applyKwargs`: each whitelisted column takes the kwarg
value when the key was passed, else keeps its old value; no other column is
touched. -/
theorem applyKwargs_eq (kw : UpdateKwargs) (r : DRecord) :
    applyKwargs kw r =
      { r with
        progress_percent := kw.progress_percent.getD r.progress_percent
        download_speed := kw.download_speed.getD r.download_speed
        eta_seconds := kw.eta_seconds.getD r.eta_seconds
        error_message := kw.error_message.getD r.error_message
        file_size := kw.file_size.getD r.file_size
        file_path := kw.file_path.getD r.file_path
        download_duration := kw.download_duration.getD r.download_duration
        wait_time := kw.wait_time.getD r.wait_time
        wait_start := kw.wait_start.getD r.wait_start } := by
  rcases kw with ⟨p, ds, es, em, fs, fp, dd, wt, ws, hs, hc⟩
  cases p <;> cases ds <;> cases es <;> cases em <;> cases fs <;> cases fp <;>
    cases dd <;> cases wt <;> cases ws <;> rfl

/-- `updateRow` installs the requested status whatever the row held before. -/
theorem updateRow_status (now : Nat) (s : Status) (kw : UpdateKwargs)
    (r : DRecord) : (updateRow now s kw r).status = s := by
  unfold updateRow
  split
  · simp [applyKwargs_eq]
  · split <;> simp [applyKwargs_eq]

/-- `updateRow` never touches `can_retry_direct`. -/
theorem updateRow_can_retry (now : Nat) (s : Status) (kw : UpdateKwargs)
    (r : DRecord) : (updateRow now s kw r).can_retry_direct = r.can_retry_direct := by
  unfold updateRow
  split
  · simp [applyKwargs_eq]
  · split <;> simp [applyKwargs_eq]

/-- Positions survive `update_download_status`; the row at a matching
position becomes its `updateRow` image. -/
theorem update_download_status_getElem (db : DownloadsDB) (now download_id : Nat)
    (s : Status) (kw : UpdateKwargs) (i : Nat) (r : DRecord)
    (hi : db[i]? = some r) (hid : r.id = download_id) :
    (update_download_status db now download_id s kw)[i]? =
      some (updateRow now s kw r) := by
  simp [update_download_status, List.getElem?_map, hi, hid]


/-! ## C1 — terminal statuses under `update_download_status` -/

/-- A record already in the terminal status `cancelled`. -/
def c1rec : DRecord :=
  { id := 1, username := "alice", book_id := "b1", status := .cancelled,
    completed_at := some 3, created_at := 1, updated_at := 3 }

/-- C1 is false on the code: `update_download_status` has no terminal-state
guard.  A record stored as `cancelled` is moved to `completed` by a
subsequent call — the late success callback wins, the call is neither
rejected nor a no-op. -/
theorem claim1_counterexample :
    c1rec.status = .cancelled ∧
    ((update_download_status [c1rec] 5 1 .completed {})[0]?).map (·.status) =
      some Status.completed := by
  constructor
  · rfl
  · rfl

/-- C1 (amended): `update_download_status` overwrites the stored status
unconditionally — the row matching the id receives exactly the requested
status, with no check of its current (possibly terminal) status, so a late
`completed` or `error` update does move a record out of
`cancelled`/`completed`/`error`. -/
theorem update_download_status_overwrites (db : DownloadsDB)
    (now download_id : Nat) (s : Status) (kw : UpdateKwargs) (i : Nat)
    (r : DRecord) (hi : db[i]? = some r) (hid : r.id = download_id) :
    ∃ r', (update_download_status db now download_id s kw)[i]? = some r' ∧
      r'.status = s := by
  exact ⟨updateRow now s kw r,
    update_download_status_getElem db now download_id s kw i r hi hid,
    updateRow_status now s kw r⟩

/-- Witness for the amended C1: the `cancelled` record of the counterexample
setup ends up `completed`. -/
theorem update_download_status_overwrites_witness :
    ((update_download_status [c1rec] 5 1 .completed {})[0]?).map (·.status) =
      some Status.completed := by
  obtain ⟨r', h1, h2⟩ :=
    update_download_status_overwrites [c1rec] 5 1 .completed {} 0 c1rec rfl rfl
  rw [h1]
  simp [h2]

/-! ## C2, C3 — startup reconciliation -/

/-- The per-row effect of the startup UPDATE (downloads_db.py lines 538-545). -/
def startupCancelRow (now : Nat) (r : DRecord) : DRecord :=
  if r.status.isStartupPhantom then
    { r with status := .cancelled
             completed_at := some now
             updated_at := now
             error_message := some "Auto-cancelled on server startup - downloads cannot persist across restarts" }
  else r

/-- The two branches of `cleanup_phantom_downloads_on_startup` coincide: it
always maps `startupCancelRow` over the table and returns the number of
phantom rows. -/
theorem cleanup_startup_eq (db : DownloadsDB) (now : Nat) :
    cleanup_phantom_downloads_on_startup db now =
      (db.map (startupCancelRow now),
       db.countP fun r => r.status.isStartupPhantom) := by
  unfold cleanup_phantom_downloads_on_startup
  dsimp only
  split
  · rename_i hemp
    rw [List.isEmpty_iff, List.filter_eq_nil_iff] at hemp
    have hmap : db.map (startupCancelRow now) = db := by
      have : db.map (startupCancelRow now) = db.map id := by
        refine List.map_congr_left fun a ha => ?_
        unfold startupCancelRow
        simp [hemp a ha]
      rw [this, List.map_id]
    have hcnt : (db.countP fun r => r.status.isStartupPhantom) = 0 := by
      rw [List.countP_eq_length_filter]
      simp [List.filter_eq_nil_iff.mpr hemp]
    rw [hmap, hcnt]
  · unfold startupCancelRow
    rfl

/-- A record still in `queued` status from a previous process run. -/
def c2rec : DRecord :=
  { id := 1, username := "alice", book_id := "b1", status := .queued,
    queued_at := some 2, created_at := 2, updated_at := 2 }

/-- C2 is false on the code: `cleanup_phantom_downloads_on_startup` only
targets `downloading`/`processing`/`waiting`.  A `queued` record — a
non-terminal status — survives startup reconciliation untouched (and the
call reports 0 cleanups). -/
theorem claim2_counterexample :
    c2rec.status = .queued ∧
    (cleanup_phantom_downloads_on_startup [c2rec] 9).1[0]?.map (·.status) =
      some Status.queued ∧
    (cleanup_phantom_downloads_on_startup [c2rec] 9).2 = 0 := by
  refine ⟨rfl, rfl, rfl⟩

/-- C2 (amended): startup reconciliation forces every record whose status is
`downloading`, `processing` or `waiting` to `cancelled`; afterwards no record
remains in any of those three statuses, but records in other statuses —
including the non-terminal `queued` — are left exactly as they were. -/
theorem cleanup_startup_cancels_phantoms (db : DownloadsDB) (now : Nat)
    (i : Nat) (r : DRecord) (hi : db[i]? = some r) :
    ∃ r', (cleanup_phantom_downloads_on_startup db now).1[i]? = some r' ∧
      r'.status.isStartupPhantom = false ∧
      (r.status.isStartupPhantom = true → r'.status = .cancelled) ∧
      (r.status.isStartupPhantom = false → r' = r) := by
  rw [cleanup_startup_eq]
  refine ⟨startupCancelRow now r, ?_, ?_, ?_, ?_⟩
  · simp [List.getElem?_map, hi]
  · unfold startupCancelRow
    split
    · rfl
    · rename_i hn
      simp [Bool.of_not_eq_true hn]
  · intro hp
    unfold startupCancelRow
    simp [hp]
  · intro hp
    unfold startupCancelRow
    simp [hp]

/-- Witness for the amended C2 at a two-row store: the `downloading` row
becomes `cancelled`. -/
theorem cleanup_startup_cancels_phantoms_witness :
    ((cleanup_phantom_downloads_on_startup
        [c2rec, { c2rec with id := 2, status := .downloading }] 9).1[1]?).map
      (·.status) = some Status.cancelled := by
  obtain ⟨r', h1, _, h3, _⟩ :=
    cleanup_startup_cancels_phantoms
      [c2rec, { c2rec with id := 2, status := .downloading }] 9 1
      { c2rec with id := 2, status := .downloading } rfl
  rw [h1]
  simp [h3 rfl]

/-- A cancelled row is not a startup phantom, so the startup repair leaves
its own output alone. -/
theorem startupCancelRow_not_phantom (now : Nat) (r : DRecord) :
    (startupCancelRow now r).status.isStartupPhantom = false := by
  unfold startupCancelRow
  split
  · rfl
  · rename_i hn
    simp [Bool.of_not_eq_true hn]

/-- The startup repair is the identity on non-phantom rows. -/
theorem startupCancelRow_id (now : Nat) (r : DRecord)
    (h : r.status.isStartupPhantom = false) : startupCancelRow now r = r := by
  unfold startupCancelRow
  simp [h]

/-- No row of the repaired table counts as a startup phantom. -/
theorem cleanup_startup_countP_zero (db : DownloadsDB) (now : Nat) :
    ((db.map (startupCancelRow now)).countP
      fun r => r.status.isStartupPhantom) = 0 := by
  rw [List.countP_eq_length_filter, List.filter_eq_nil_iff.mpr, List.length_nil]
  intro a ha
  rcases List.mem_map.mp ha with ⟨b, _, rfl⟩
  simp [startupCancelRow_not_phantom]

/-- C3: startup cleanup with a full-count postcondition, and idempotence.
If the store holds exactly N records in `downloading`/`processing`/`waiting`,
`cleanup_phantom_downloads_on_startup` returns N; each of those records is
afterwards `cancelled` with a non-null `error_message`; and running it again
(at any later time) returns 0 and changes no record. -/
theorem cleanup_startup_idempotent (db : DownloadsDB) (now now2 N : Nat)
    (hN : (db.countP fun r => r.status.isStartupPhantom) = N) :
    (cleanup_phantom_downloads_on_startup db now).2 = N ∧
    (∀ (i : Nat) (r : DRecord), db[i]? = some r → r.status.isStartupPhantom = true →
      ((cleanup_phantom_downloads_on_startup db now).1[i]?).map
          (fun x => (x.status, x.error_message.isSome)) =
        some (Status.cancelled, true)) ∧
    cleanup_phantom_downloads_on_startup
        (cleanup_phantom_downloads_on_startup db now).1 now2 =
      ((cleanup_phantom_downloads_on_startup db now).1, 0) := by
  rw [cleanup_startup_eq db now]
  refine ⟨hN, ?_, ?_⟩
  · intro i r hi hp
    rw [List.getElem?_map, hi]
    simp only [Option.map_some, Option.map_map]
    unfold startupCancelRow
    simp [hp]
  · rw [cleanup_startup_eq]
    rw [cleanup_startup_countP_zero, List.map_map]
    have : (db.map (startupCancelRow now2 ∘ startupCancelRow now)) =
        db.map (startupCancelRow now) := by
      refine List.map_congr_left fun a _ => ?_
      exact startupCancelRow_id now2 (startupCancelRow now a)
        (startupCancelRow_not_phantom now a)
    rw [this]

/-- Witness for C3: a one-row store in `downloading`; the call reports 1
cleanup, the row ends up cancelled with an error message, and a second call
is a no-op. -/
theorem cleanup_startup_idempotent_witness :
    (cleanup_phantom_downloads_on_startup
        [{ c2rec with id := 3, status := .downloading }] 4).2 = 1 ∧
    ((cleanup_phantom_downloads_on_startup
        [{ c2rec with id := 3, status := .downloading }] 4).1[0]?).map
        (fun x => (x.status, x.error_message.isSome)) =
      some (Status.cancelled, true) ∧
    cleanup_phantom_downloads_on_startup
        (cleanup_phantom_downloads_on_startup
          [{ c2rec with id := 3, status := .downloading }] 4).1 6 =
      ((cleanup_phantom_downloads_on_startup
        [{ c2rec with id := 3, status := .downloading }] 4).1, 0) := by
  obtain ⟨h1, h2, h3⟩ :=
    cleanup_startup_idempotent
      [{ c2rec with id := 3, status := .downloading }] 4 6 1 rfl
  exact ⟨h1, h2 0 { c2rec with id := 3, status := .downloading } rfl rfl, h3⟩

/-! ## C9 — `cancel_phantom_downloads` frame -/

/-- The per-row effect of the phantom-removal UPDATE (downloads_db.py lines
490-497). -/
def phantomCancelRow (now : Nat) (book_id : String) (r : DRecord) : DRecord :=
  if r.book_id == book_id && r.status.isActive then
    { r with status := .cancelled
             completed_at := some now
             updated_at := now
             error_message := some "Cancelled via phantom removal - queue desync detected" }
  else r

/-- The two branches of `cancel_phantom_downloads` coincide: it always maps
`phantomCancelRow` over the table and returns the number of matching active
rows. -/
theorem cancel_phantom_eq (db : DownloadsDB) (now : Nat) (book_id : String) :
    cancel_phantom_downloads db now book_id =
      (db.map (phantomCancelRow now book_id),
       db.countP fun r => r.book_id == book_id && r.status.isActive) := by
  unfold cancel_phantom_downloads
  dsimp only
  split
  · rename_i hemp
    rw [List.isEmpty_iff, List.filter_eq_nil_iff] at hemp
    have hmap : db.map (phantomCancelRow now book_id) = db := by
      have : db.map (phantomCancelRow now book_id) = db.map id := by
        refine List.map_congr_left fun a ha => ?_
        unfold phantomCancelRow
        simp [hemp a ha]
      rw [this, List.map_id]
    have hcnt :
        (db.countP fun r => r.book_id == book_id && r.status.isActive) = 0 := by
      rw [List.countP_eq_length_filter]
      simp [List.filter_eq_nil_iff.mpr hemp]
    rw [hmap, hcnt]
  · unfold phantomCancelRow
    rfl

/-- C9: `cancel_phantom_downloads(book_id)` cancels exactly the records of
that `book_id` whose status is `queued`/`processing`/`downloading`/`waiting`
— stamping `completed_at`/`updated_at` and the diagnostic message — returns
their count, and leaves every other record (different `book_id`, or already
terminal) byte-for-byte unchanged. -/
theorem cancel_phantom_frame (db : DownloadsDB) (now : Nat) (book_id : String)
    (i : Nat) (r : DRecord) (hi : db[i]? = some r) :
    (cancel_phantom_downloads db now book_id).2 =
      (db.countP fun x => x.book_id == book_id && x.status.isActive) ∧
    ((r.book_id = book_id ∧ r.status.isActive = true) →
      (cancel_phantom_downloads db now book_id).1[i]? =
        some { r with status := .cancelled
                      completed_at := some now
                      updated_at := now
                      error_message := some "Cancelled via phantom removal - queue desync detected" }) ∧
    (¬(r.book_id = book_id ∧ r.status.isActive = true) →
      (cancel_phantom_downloads db now book_id).1[i]? = some r) := by
  rw [cancel_phantom_eq]
  refine ⟨rfl, ?_, ?_⟩
  · intro h
    have hrow : phantomCancelRow now book_id r =
        { r with status := .cancelled
                 completed_at := some now
                 updated_at := now
                 error_message := some "Cancelled via phantom removal - queue desync detected" } := by
      unfold phantomCancelRow
      rw [if_pos (by simp [h.1, h.2])]
    rw [List.getElem?_map, hi]
    exact congrArg some hrow
  · intro hn
    have hcnd : ¬((r.book_id == book_id && r.status.isActive) = true) := by
      intro hc
      exact hn (by simpa [Bool.and_eq_true, beq_iff_eq] using hc)
    have hrow : phantomCancelRow now book_id r = r := by
      unfold phantomCancelRow
      rw [if_neg hcnd]
    rw [List.getElem?_map, hi]
    exact congrArg some hrow

/-- A `downloading` row of the book being repaired. -/
def c9m : DRecord :=
  { id := 1, username := "alice", book_id := "bk", status := .downloading,
    created_at := 1, updated_at := 1 }

/-- An active row of a different book, which must survive the repair. -/
def c9o : DRecord :=
  { id := 2, username := "alice", book_id := "other", status := .queued,
    created_at := 2, updated_at := 2 }

/-- Witness for C9: the matching `downloading` row is cancelled with the
diagnostic message while the other book's row survives, and the count is the
number of matching active rows. -/
theorem cancel_phantom_frame_witness :
    (cancel_phantom_downloads [c9m, c9o] 7 "bk").1[0]? =
      some { c9m with status := .cancelled
                      completed_at := some 7
                      updated_at := 7
                      error_message := some "Cancelled via phantom removal - queue desync detected" } ∧
    (cancel_phantom_downloads [c9m, c9o] 7 "bk").1[1]? = some c9o ∧
    (cancel_phantom_downloads [c9m, c9o] 7 "bk").2 = 1 :=
  ⟨(cancel_phantom_frame [c9m, c9o] 7 "bk" 0 c9m rfl).2.1 ⟨rfl, rfl⟩,
   (cancel_phantom_frame [c9m, c9o] 7 "bk" 1 c9o rfl).2.2 (by decide),
   (cancel_phantom_frame [c9m, c9o] 7 "bk" 0 c9m rfl).1.trans (by decide)⟩

/-! ## C7 — ownership isolation of `get_download_record` -/

/-- C7: with a username supplied, `get_download_record` returns a record only
when that record has the requested id AND is owned by that username (the
filter is part of the lookup query itself), and returns `none` whenever every
record with that id is owned by someone else or no such record exists. -/
theorem get_download_record_ownership (db : DownloadsDB) (download_id : Nat)
    (u : String) :
    (∀ r : DRecord, get_download_record db download_id (some u) = some r →
      r.id = download_id ∧ r.username = u) ∧
    ((∀ r ∈ db, r.id = download_id → r.username ≠ u) →
      get_download_record db download_id (some u) = none) := by
  constructor
  · intro r hr
    have := List.find?_some hr
    simpa [Bool.and_eq_true, beq_iff_eq] using this
  · intro h
    unfold get_download_record
    rw [List.find?_eq_none]
    intro x hx
    simp only [Bool.and_eq_true, beq_iff_eq, not_and]
    intro hid
    exact h x hx hid

/-- A record owned by bob. -/
def c7rec : DRecord :=
  { id := 1, username := "bob", book_id := "b1", status := .completed }

/-- Witness for C7: alice's scoped lookup of bob's record returns `none`. -/
theorem get_download_record_ownership_witness :
    get_download_record [c7rec] 1 (some "alice") = none :=
  (get_download_record_ownership [c7rec] 1 "alice").2 (by decide)

/-! ## C8 — timestamp stamping in `update_download_status` -/

/-- A record that already carries `started_at = 3` (it has been downloading
before and is now `waiting`). -/
def c8rec : DRecord :=
  { id := 1, username := "alice", book_id := "b1", status := .waiting,
    started_at := some 3, created_at := 1, updated_at := 4 }

/-- C8 is false on the code: a repeat transition into `downloading` (here
after `waiting`) overwrites the previously stamped `started_at` — the stamp
is applied on every such call, not exactly once. -/
theorem claim8_counterexample :
    c8rec.started_at = some 3 ∧
    ((update_download_status [c8rec] 9 1 .downloading {})[0]?).map
      (·.started_at) = some (some 9) := by
  exact ⟨rfl, rfl⟩

/-- C8 (amended): every `update_download_status` call stamps `updated_at` on
the matching record; a call with status `downloading` stamps
`started_at := now` unless a `started_at` kwarg was passed (it overwrites any
previous value, so repeat transitions re-stamp it); a call with a terminal
status stamps `completed_at := now` unless a `completed_at` kwarg was passed
(likewise overwriting); the opposite timestamp is preserved in each case. -/
theorem update_status_timestamps (db : DownloadsDB) (now download_id : Nat)
    (s : Status) (kw : UpdateKwargs) (i : Nat) (r : DRecord)
    (hi : db[i]? = some r) (hid : r.id = download_id) :
    ∃ r', (update_download_status db now download_id s kw)[i]? = some r' ∧
      r'.updated_at = now ∧
      (s = .downloading → kw.has_started_at = false → r'.started_at = some now) ∧
      (s = .downloading → kw.has_started_at = true → r'.started_at = r.started_at) ∧
      (s.isTerminal = true → kw.has_completed_at = false → r'.completed_at = some now) ∧
      (s.isTerminal = true → kw.has_completed_at = true → r'.completed_at = r.completed_at) ∧
      (s = .downloading → r'.completed_at = r.completed_at) ∧
      (s.isTerminal = true → r'.started_at = r.started_at) := by
  refine ⟨updateRow now s kw r,
    update_download_status_getElem db now download_id s kw i r hi hid,
    ?_, ?_, ?_, ?_, ?_, ?_, ?_⟩
  · unfold updateRow
    split
    · simp [applyKwargs_eq]
    · split <;> simp [applyKwargs_eq]
  · intro h1 h2
    subst h1
    unfold updateRow
    simp [h2, applyKwargs_eq]
  · intro h1 h2
    subst h1
    unfold updateRow
    simp [h2, applyKwargs_eq, Status.isTerminal]
  · intro h1 h2
    cases s <;> simp_all [updateRow, applyKwargs_eq, Status.isTerminal]
  · intro h1 h2
    cases s <;> simp_all [updateRow, applyKwargs_eq, Status.isTerminal]
  · intro h1
    subst h1
    unfold updateRow
    by_cases h2 : kw.has_started_at <;> simp [h2, applyKwargs_eq, Status.isTerminal]
  · intro h1
    cases s <;> simp_all [updateRow, applyKwargs_eq, Status.isTerminal] <;>
      by_cases h2 : kw.has_completed_at <;> simp [h2, applyKwargs_eq]

/-- Witness for the amended C8: the `waiting` record transitioned to
`downloading` at time 9 gets `started_at = 9` and keeps `completed_at`. -/
theorem update_status_timestamps_witness :
    ((update_download_status [c8rec] 9 1 .downloading {})[0]?).map
      (fun x => (x.updated_at, x.started_at)) = some (9, some 9) := by
  obtain ⟨r', h0, h1, h2, -, -, -, -, -⟩ :=
    update_status_timestamps [c8rec] 9 1 .downloading {} 0 c8rec rfl rfl
  rw [h0]
  simp [h1, h2 rfl rfl]

/-! ## C5 — `mark_url_failed` and the redownloadable set -/

/-- Inverting a lookup into a mapped table: the row seen at position `i` is
the image of the original row at `i`. -/
theorem map_store_getElem (f : DRecord → DRecord) (db : DownloadsDB) (i : Nat)
    (r : DRecord) (h : (db.map f)[i]? = some r) :
    ∃ a, db[i]? = some a ∧ r = f a := by
  rw [List.getElem?_map] at h
  cases hdb : db[i]? with
  | none =>
    rw [hdb] at h
    exact absurd h (by simp)
  | some a =>
    rw [hdb] at h
    have h2 : some (f a) = some r := h
    exact ⟨a, rfl, (Option.some.inj h2).symm⟩

/-- The record with a stored direct URL whose retry just failed. -/
def c5rec : DRecord :=
  { id := 1, username := "alice", book_id := "b1", status := .completed,
    final_download_url := some "http://u", can_retry_direct := true,
    created_at := 3, updated_at := 3 }

/-- C5 is false on the code: immediately after `mark_url_failed` the record
is indeed excluded from `get_redownloadable_books`, but a later
`update_download_urls` call carrying a final URL — an operation that is not a
fresh queuing action — sets `can_retry_direct` back to true on the same
record, and a subsequent `get_redownloadable_books` call includes it again. -/
theorem claim5_counterexample :
    get_redownloadable_books (mark_url_failed [c5rec] 5 1 "URL dead")
      "alice" none = [] ∧
    ((update_download_urls (mark_url_failed [c5rec] 5 1 "URL dead") 6 1 none
        (some "http://u2") none)[0]?).map (·.can_retry_direct) = some true ∧
    (get_redownloadable_books
        (update_download_urls (mark_url_failed [c5rec] 5 1 "URL dead") 6 1 none
          (some "http://u2") none) "alice" none).map (·.id) = [1] := by
  refine ⟨by decide, by decide, by decide⟩

/-- C5 (amended): after `mark_url_failed(record_id, msg)` the record's
`can_retry_direct` is false and the record is excluded from every
`get_redownloadable_books` result, for any username and any `book_id`
filter, as long as no further operation touches it; `update_download_status`
never changes `can_retry_direct`, and a fresh queuing action
(`record_download_queued`) only appends a new row, leaving the failed record
untouched.  (Only `update_download_urls` with a final URL re-enables the
flag, as the counterexample shows.) -/
theorem mark_url_failed_disables_redownload (db : DownloadsDB)
    (now download_id : Nat) (msg : String) :
    (∀ (i : Nat) (r : DRecord),
      (mark_url_failed db now download_id msg)[i]? = some r →
      r.id = download_id → r.can_retry_direct = false) ∧
    (∀ (u : String) (bid : Option String) (r : DRecord),
      r ∈ get_redownloadable_books (mark_url_failed db now download_id msg) u bid →
      r.id ≠ download_id) ∧
    (∀ (db2 : DownloadsDB) (now2 : Nat) (s : Status) (kw : UpdateKwargs)
      (i : Nat) (r r' : DRecord), db2[i]? = some r →
      (update_download_status db2 now2 download_id s kw)[i]? = some r' →
      r'.can_retry_direct = r.can_retry_direct) ∧
    (∀ (db2 : DownloadsDB) (now2 : Nat) (u : String) (bi : BookInfo)
      (su : Option String) (i : Nat) (r : DRecord), db2[i]? = some r →
      (record_download_queued db2 now2 u bi su).1[i]? = some r) := by
  refine ⟨?_, ?_, ?_, ?_⟩
  · intro i r hr hid
    unfold mark_url_failed at hr
    obtain ⟨a, hdb, rfl⟩ := map_store_getElem _ db i r hr
    by_cases hb : (a.id == download_id) = true
    · simp [hb]
    · rw [if_neg hb] at hid ⊢
      exact absurd (beq_iff_eq.mpr hid) hb
  · intro u bid r hr hid
    unfold get_redownloadable_books at hr
    have hr2 := (List.perm_insertionSort createdDesc _).mem_iff.mp hr
    obtain ⟨hmem, hpred⟩ := List.mem_filter.mp hr2
    have hretry : r.can_retry_direct = true := by
      simp only [redownloadablePred, Bool.and_eq_true] at hpred
      exact hpred.1.1.2
    unfold mark_url_failed at hmem
    obtain ⟨a, _, rfl⟩ := List.mem_map.mp hmem
    by_cases hb : (a.id == download_id) = true
    · rw [if_pos hb] at hretry
      simp at hretry
    · rw [if_neg hb] at hid
      exact absurd (beq_iff_eq.mpr hid) hb
  · intro db2 now2 s kw i r r' hi hr
    unfold update_download_status at hr
    obtain ⟨a, hdb, rfl⟩ := map_store_getElem _ db2 i r' hr
    rw [hi] at hdb
    have hra : r = a := Option.some.inj hdb
    subst hra
    by_cases hb : (r.id == download_id) = true
    · rw [if_pos hb]
      exact updateRow_can_retry now2 s kw r
    · rw [if_neg hb]
  · intro db2 now2 u bi su i r hi
    have hlen : i < db2.length := by
      rcases List.getElem?_eq_some.mp hi with ⟨h, _⟩
      exact h
    show (db2 ++ [_])[i]? = some r
    rw [List.getElem?_append, if_pos hlen]
    exact hi

/-- The image of `c5rec` under `mark_url_failed` at time 5. -/
def c5marked : DRecord :=
  { c5rec with can_retry_direct := false
               error_message := some "URL dead"
               updated_at := 5 }

/-- Witness for the amended C5: the marked record has
`can_retry_direct = false`. -/
theorem mark_url_failed_disables_redownload_witness :
    ((mark_url_failed [c5rec] 5 1 "URL dead")[0]?).map (·.can_retry_direct) =
      some false := by
  have hrec : (mark_url_failed [c5rec] 5 1 "URL dead")[0]? = some c5marked := by
    decide
  have h := (mark_url_failed_disables_redownload [c5rec] 5 1 "URL dead").1 0
    c5marked hrec rfl
  rw [hrec]
  simp [h]

/-! ## C6 — `direct_redownload` error contract -/

/-- `get_download_record` (internal, no username) commutes with
`mark_url_failed` on the looked-up id: the found row is the marked image of
the original row. -/
theorem get_download_record_mark_url_failed (db : DownloadsDB)
    (now download_id : Nat) (msg : String) :
    get_download_record (mark_url_failed db now download_id msg)
        download_id none =
      (get_download_record db download_id none).map
        (fun r => { r with can_retry_direct := false
                           error_message := some msg
                           updated_at := now }) := by
  unfold get_download_record mark_url_failed
  rw [List.find?_map]
  have hcomp : ((fun r : DRecord => r.id == download_id) ∘
      fun r : DRecord => if r.id == download_id then
        { r with can_retry_direct := false
                 error_message := some msg
                 updated_at := now }
      else r) = fun r : DRecord => r.id == download_id := by
    funext a
    by_cases hb : (a.id == download_id) = true
    · rw [Function.comp_apply, if_pos hb]
    · rw [Function.comp_apply, if_neg hb]
  rw [hcomp]
  cases hf : db.find? fun r : DRecord => r.id == download_id with
  | none => rfl
  | some a =>
    have hp := List.find?_some hf
    have hrow : (if a.id == download_id then
        { a with can_retry_direct := false
                 error_message := some msg
                 updated_at := now }
      else a) =
        { a with can_retry_direct := false
                 error_message := some msg
                 updated_at := now } := if_pos hp
    exact congrArg some hrow

/-- A completed record with a stored direct URL. -/
def c6rec : DRecord :=
  { id := 1, username := "alice", book_id := "b1", status := .completed,
    final_download_url := some "http://u", can_retry_direct := true,
    expected_size := some 10, created_at := 2, updated_at := 2 }

/-- A fetch that always reports failure (e.g. the URL returns HTTP 410). -/
def fetchAlwaysFailed : String → Option Nat → FetchOutcome := fun _ _ => .failed

/-- A fetch that always succeeds. -/
def fetchAlwaysOk : String → Option Nat → FetchOutcome := fun _ _ => .ok

/-- C6 is false on the code: after a failed `direct_redownload` the record's
`can_retry_direct` is false but `final_download_url` is still populated, and
neither `direct_redownload` nor its caller consults `can_retry_direct` — so a
second retry attempt re-invokes the fetch on the stored URL (here it even
succeeds, returning true), instead of returning an error without attempting
network I/O. -/
theorem claim6_counterexample :
    (direct_redownload fetchAlwaysFailed none [c6rec] 10 1 "p").2 = false ∧
    (((direct_redownload fetchAlwaysFailed none [c6rec] 10 1 "p").1[0]?).map
      (fun x => (x.can_retry_direct, x.final_download_url))) =
        some (false, some "http://u") ∧
    (direct_redownload fetchAlwaysOk (some 5)
      (direct_redownload fetchAlwaysFailed none [c6rec] 10 1 "p").1
      11 1 "p").2 = true := by
  refine ⟨by decide, by decide, by decide⟩

/-- C6 (amended): `direct_redownload` is total (the fetch's exception is
caught): on a record with a stored non-empty URL, a failed fetch leads to
`mark_url_failed` (storing an error message, clearing `can_retry_direct`)
and the return value false; a raising fetch likewise with the formatted
message; a successful fetch updates the record to `completed` with the fresh
`file_path`/`file_size` and returns true.  The URL is not cleared and
`can_retry_direct` is not consulted, so a second retry attempt on the marked
record re-invokes the fetch (and can even succeed). -/
theorem direct_redownload_contract
    (fetch : String → Option Nat → FetchOutcome) (ss : Option Nat)
    (db : DownloadsDB) (now rid : Nat) (path url : String) (r0 : DRecord)
    (h1 : get_download_record db rid none = some r0)
    (h2 : r0.final_download_url = some url)
    (h3 : ¬(url = "")) :
    (fetch url r0.expected_size = .failed →
      direct_redownload fetch ss db now rid path =
        (mark_url_failed db now rid "Direct re-download failed", false)) ∧
    (∀ e, fetch url r0.expected_size = .exn e →
      direct_redownload fetch ss db now rid path =
        (mark_url_failed db now rid ("Direct re-download error: " ++ e), false)) ∧
    (fetch url r0.expected_size = .ok →
      direct_redownload fetch ss db now rid path =
        (update_download_status db now rid .completed
          { file_path := some (some path), file_size := some ss }, true)) ∧
    (∀ (msg : String) (now2 : Nat)
      (fetch2 : String → Option Nat → FetchOutcome) (ss2 : Option Nat)
      (path2 : String), fetch2 url r0.expected_size = .ok →
      (direct_redownload fetch2 ss2 (mark_url_failed db now rid msg)
        now2 rid path2).2 = true) := by
  have hne : (url == "") = false := beq_eq_false_iff_ne.mpr h3
  refine ⟨?_, ?_, ?_, ?_⟩
  · intro hf
    simp [direct_redownload, h1, h2, truthyStr, hne, hf]
  · intro e hf
    simp [direct_redownload, h1, h2, truthyStr, hne, hf]
  · intro hf
    simp [direct_redownload, h1, h2, truthyStr, hne, hf]
  · intro msg now2 fetch2 ss2 path2 hf2
    have hget := get_download_record_mark_url_failed db now rid msg
    rw [h1] at hget
    simp [direct_redownload, hget, h2, truthyStr, hne, hf2]

/-- Witness for the amended C6: a failing fetch on the stored record yields
exactly the marked store and false. -/
theorem direct_redownload_contract_witness :
    direct_redownload fetchAlwaysFailed none [c6rec] 10 1 "p" =
      (mark_url_failed [c6rec] 10 1 "Direct re-download failed", false) :=
  (direct_redownload_contract fetchAlwaysFailed none [c6rec] 10 1 "p"
    "http://u" c6rec rfl rfl (by decide)).1 rfl

/-! ## C4 — reconciliation suppression in the status view -/

/-- On a terminal bucket the status view is the suppression filter followed
by the reshaping. -/
theorem api_terminal_bucket (db : DownloadsDB) (live : LiveSnapshot)
    (username : String) (s : Status) (hterm : s.isTerminal = true) :
    api_user_download_status db live username s =
      ((get_user_downloads_by_status db username s).filter fun x =>
        !(active_queue_book_ids live).contains x.book_id).map
        (terminalEntry s) := by
  simp only [api_user_download_status]
  rw [if_pos hterm]

/-- C4: in the reconciled per-user status view, a durable record in a
terminal bucket (`completed`/`error`/`cancelled`) whose `book_id` is still
present in any of the live queue's `queued`/`downloading`/`processing`/
`waiting`/`available` buckets is omitted (no response entry carries its
book id); once the `book_id` is absent from all those buckets, the same
query includes the record (as its reshaped terminal entry). -/
theorem reconciler_suppression (db : DownloadsDB) (live : LiveSnapshot)
    (username : String) (s : Status) (r : DRecord)
    (hterm : s.isTerminal = true)
    (hr : r ∈ get_user_downloads_by_status db username s) :
    (r.book_id ∈ active_queue_book_ids live →
      ∀ e ∈ api_user_download_status db live username s, e.id ≠ r.book_id) ∧
    (r.book_id ∉ active_queue_book_ids live →
      terminalEntry s r ∈ api_user_download_status db live username s) := by
  rw [api_terminal_bucket db live username s hterm]
  constructor
  · intro hact e he heq
    obtain ⟨x, hx, rfl⟩ := List.mem_map.mp he
    obtain ⟨hx1, hx2⟩ := List.mem_filter.mp hx
    have hxid : x.book_id = r.book_id := heq
    simp only [Bool.not_eq_true'] at hx2
    simp at hx2
    rw [hxid] at hx2
    exact hx2 hact
  · intro hnact
    refine List.mem_map.mpr ⟨r, List.mem_filter.mpr ⟨hr, ?_⟩, rfl⟩
    simp [hnact]

/-- A completed durable record for book "b1". -/
def c4rec : DRecord :=
  { id := 1, username := "alice", book_id := "b1", status := .completed,
    created_at := 1, updated_at := 1 }

/-- A live snapshot still holding "b1" in the `available` bucket. -/
def c4liveActive : LiveSnapshot := { available := [("b1", {})] }

/-- A live snapshot from which "b1" has been evicted. -/
def c4liveEmpty : LiveSnapshot := {}

/-- Witness for C4: once "b1" is absent from every live bucket, the
completed record appears in the view's `completed` bucket. -/
theorem reconciler_suppression_witness :
    api_user_download_status [c4rec] c4liveActive "alice" .completed = [] ∧
    terminalEntry .completed c4rec ∈
      api_user_download_status [c4rec] c4liveEmpty "alice" .completed :=
  ⟨by decide,
   (reconciler_suppression [c4rec] c4liveEmpty "alice" .completed c4rec rfl
     (by decide)).2 (by decide)⟩

/-! ## C10 — the 1000-record window of the grouped view -/

/-- In a list sorted by a relation under which the predicate `p` is
upward-closed, the first `countP p` elements all satisfy `p`. -/
theorem take_countP_of_sorted {α : Type} (R : α → α → Prop) (p : α → Bool)
    (hup : ∀ a b, R a b → p b = true → p a = true) :
    ∀ l : List α, l.Pairwise R → ∀ x ∈ l.take (l.countP p), p x = true := by
  intro l
  induction l with
  | nil =>
    intro _ x hx
    simp at hx
  | cons a t ih =>
    intro hp x hx
    rw [List.pairwise_cons] at hp
    by_cases hpa : p a = true
    · rw [List.countP_cons_of_pos _ _ hpa, List.take_succ_cons] at hx
      rcases List.mem_cons.mp hx with rfl | hx2
      · exact hpa
      · exact ih hp.2 x hx2
    · have h0 : t.countP p = 0 := by
        by_contra hne
        rcases List.countP_pos_iff.mp (Nat.pos_of_ne_zero hne) with ⟨b, hb, hpb⟩
        exact hpa (hup a b (hp.1 b hb) hpb)
      rw [List.countP_cons_of_neg _ _ hpa, h0] at hx
      simp at hx

/-- C10: `get_user_downloads_by_status` groups only the 1000 most recent of
the user's records (`get_user_downloads` with `limit=1000`, ordered by
`created_at` descending), so any record that has at least 1000 of the user's
records strictly more recent than it is absent from every status bucket of
the grouped view — and hence from the reconciled status endpoint built on
it. -/
theorem grouped_view_window (db : DownloadsDB) (username : String)
    (r : DRecord)
    (h : 1000 ≤ (db.filter fun x => x.username == username).countP
        fun x => decide (r.created_at < x.created_at)) :
    ∀ s, r ∉ get_user_downloads_by_status db username s := by
  intro s hmem
  simp only [get_user_downloads_by_status] at hmem
  have hmem1 : r ∈ get_user_downloads db username none 1000 0 :=
    (List.mem_filter.mp hmem).1
  simp only [get_user_downloads, matchesStatus, Bool.and_true,
    List.drop_zero] at hmem1
  have hcnt : 1000 ≤
      ((db.filter fun x => x.username == username).insertionSort
        createdDesc).countP fun x => decide (r.created_at < x.created_at) := by
    rw [(List.perm_insertionSort createdDesc
      (db.filter fun x => x.username == username)).countP_eq]
    exact h
  have hsub : r ∈ ((db.filter fun x => x.username == username).insertionSort
      createdDesc).take
      (((db.filter fun x => x.username == username).insertionSort
        createdDesc).countP fun x => decide (r.created_at < x.created_at)) := by
    have h11 : ((db.filter fun x => x.username == username).insertionSort
        createdDesc).take 1000 =
        (((db.filter fun x => x.username == username).insertionSort
          createdDesc).take
          (((db.filter fun x => x.username == username).insertionSort
            createdDesc).countP
            fun x => decide (r.created_at < x.created_at))).take 1000 := by
      rw [List.take_take, Nat.min_eq_left hcnt]
    rw [h11] at hmem1
    exact List.take_subset _ _ hmem1
  have hsorted : ((db.filter fun x => x.username == username).insertionSort
      createdDesc).Pairwise createdDesc :=
    List.sorted_insertionSort createdDesc _
  have hpr := take_countP_of_sorted createdDesc
    (fun x => decide (r.created_at < x.created_at))
    (fun a b hR hb => by
      simp only [decide_eq_true_eq] at hb ⊢
      exact lt_of_lt_of_le hb hR) _ hsorted r hsub
  simp at hpr

/-- The common shape of the witness rows. -/
def c10base : DRecord := { id := 0, username := "u", book_id := "b" }

/-- 1001 rows for user "u", created at instants 1..1001. -/
def c10db : DownloadsDB :=
  (List.range 1001).map fun i => { c10base with id := i + 1, created_at := i + 1 }

/-- An older row of the same user, created before all of them. -/
def c10old : DRecord := { c10base with id := 5000, created_at := 0 }

/-- Witness for C10: with 1001 strictly more recent records, the old record
is absent from the grouped view's `queued` bucket. -/
theorem grouped_view_window_witness :
    1000 ≤ (c10db.filter fun x => x.username == "u").countP
        (fun x => decide (c10old.created_at < x.created_at)) ∧
    c10old ∉ get_user_downloads_by_status c10db "u" .queued := by
  have hall : ∀ a ∈ c10db, (a.username == "u") = true := by
    intro a ha
    simp only [c10db, List.mem_map, List.mem_range] at ha
    obtain ⟨i, hi, rfl⟩ := ha
    rfl
  have hcount : 1000 ≤ (c10db.filter fun x => x.username == "u").countP
      (fun x => decide (c10old.created_at < x.created_at)) := by
    rw [List.filter_eq_self.mpr hall]
    have hcnt : c10db.countP
        (fun x => decide (c10old.created_at < x.created_at)) = 1001 := by
      rw [List.countP_eq_length.mpr]
      · simp [c10db]
      · intro a ha
        simp only [c10db, List.mem_map, List.mem_range] at ha
        obtain ⟨i, hi, rfl⟩ := ha
        simp [c10old, c10base]
    rw [hcnt]
    norm_num
  exact ⟨hcount, grouped_view_window c10db "u" c10old hcount .queued⟩
